import Mathlib

/-!
Shallow embedding of the session-lifecycle and conversation-thread
synchronization engine of the askbiggie frontend, together with proofs
of the spec's testable properties against it.

Sources embedded:
* `src/frontend/src/components/AuthProvider.tsx` — session manager
  (manual refresh, auth-change handler, periodic session check, sign-out,
  unmount cleanup).
* `src/frontend/src/app/(dashboard)/conversation/[threadId]/page.tsx` —
  thread redirect effect, message normalization effect, submit handler.
* `src/frontend/src/app/(dashboard)/agents/[threadId]/redirect-page.tsx` —
  redirect page.

JavaScript truthiness on string fields (`x || d` yields `d` when `x` is
`undefined`, `null` or the empty string) is embedded by `jsOrS`; numeric
truthiness (`if (n)` is false at `0`) is embedded explicitly where the
source relies on it.
-/

/-- A Supabase session as the auth provider uses it: the owning user and
the optional `expires_at` (Unix seconds). -/
structure SessionT where
  userId : String
  expires_at : Option Int
deriving DecidableEq, Repr

/-- The React state owned by `AuthProvider` plus the two resources its
mount effect owns (the auth-change listener and the periodic interval). -/
structure AuthState where
  session : Option SessionT
  user : Option String
  isLoading : Bool
  timerActive : Bool
  listenerActive : Bool
deriving DecidableEq, Repr

/-- The pattern `setSession(x); setUser(x?.user ?? null)` used at every
session update site of `AuthProvider.tsx`. -/
def applySessionUpdate (st : AuthState) (s : Option SessionT) : AuthState :=
  { st with session := s, user := s.map (fun x => x.userId) }

/-- The `onAuthStateChange` handler (AuthProvider.tsx lines 78-97): it
sets session and user from the delivered session unconditionally (the
event name is only logged), and drops `isLoading` on the first event. -/
def handleAuthChange (st : AuthState) (_event : String) (newSession : Option SessionT) :
    AuthState :=
  let st1 := applySessionUpdate st newSession
  if st1.isLoading then { st1 with isLoading := false } else st1

/-- Outcome of the awaited `supabase.auth.refreshSession()` call inside
`refreshSession` (AuthProvider.tsx lines 32-51): success with
`data.session`; error followed by the fallback `getSession()` read; or a
thrown exception caught by the outer `catch` (no state change). -/
inductive RefreshResult where
  | ok (s : Option SessionT)
  | err (fallback : Option SessionT)
  | threw
deriving DecidableEq, Repr

/-- What `refreshSession` does to the provider state when its awaited
call settles. The source applies the result unconditionally — there is
no attempt tag, version or staleness check. -/
def applyRefreshCompletion (st : AuthState) (r : RefreshResult) : AuthState :=
  match r with
  | RefreshResult.ok s => applySessionUpdate st s
  | RefreshResult.err fb => applySessionUpdate st fb
  | RefreshResult.threw => st

/-- Events interleaved on the single JS thread that touch the provider's
session state: a delivered auth-change callback, or the settling of an
in-flight `refreshSession` call. -/
inductive AuthEvent where
  | authChange (event : String) (s : Option SessionT)
  | refreshComplete (r : RefreshResult)
deriving DecidableEq, Repr

/-- One interleaved event applied to the provider state, exactly as the
corresponding source handler does. -/
def stepAuth (st : AuthState) (e : AuthEvent) : AuthState :=
  match e with
  | AuthEvent.authChange ev s => handleAuthChange st ev s
  | AuthEvent.refreshComplete r => applyRefreshCompletion st r

/-- A whole interleaving of auth events. -/
def runAuth (st : AuthState) (es : List AuthEvent) : AuthState :=
  es.foldl stepAuth st

/-- The observable side effects a provider action requests from the
external credential store. -/
inductive StoreEffect where
  | storeSignOutRequested
deriving DecidableEq, Repr

/-- `signOut` (AuthProvider.tsx lines 122-126): it awaits
`supabase.auth.signOut()` and returns; per its own comment, state
updates are left to `onAuthStateChange`. It touches neither the React
state nor the interval. -/
def signOut (st : AuthState) : AuthState × List StoreEffect :=
  (st, [StoreEffect.storeSignOutRequested])

/-- The mount effect's cleanup (AuthProvider.tsx lines 116-119): it is
the only place that unsubscribes the listener and clears the interval. -/
def unmountCleanup (st : AuthState) : AuthState :=
  { st with timerActive := false, listenerActive := false }

/-- The decision made by one tick of the periodic session check
(AuthProvider.tsx lines 100-114): read the current store session; if it
carries a truthy `expires_at` (so not 0) and
`expires_at * 1000 < now + 5 * 60 * 1000` (Date comparison in ms), call
`refreshSession`. The decision depends only on the store session and the
clock: the source keeps no in-flight flag. -/
def tickIssuesRefresh (storeSession : Option SessionT) (nowMs : Int) : Bool :=
  match storeSession with
  | none => false
  | some s =>
    match s.expires_at with
    | none => false
    | some exp =>
      if exp = 0 then false
      else decide (exp * 1000 < nowMs + 5 * 60 * 1000)

/-- Number of refresh requests issued by a run of ticks during which the
store session does not change (as while an issued refresh is still in
flight): each tick re-evaluates the same check independently. -/
def refreshRequestCount (storeSession : Option SessionT) (tickTimesMs : List Int) : Nat :=
  (tickTimesMs.filter (fun t => tickIssuesRefresh storeSession t)).length

/-- Thread metadata as fetched by `useThreadQuery`: the optional
`project_id` field is all the redirect logic reads. -/
structure ThreadData where
  project_id : Option String
deriving DecidableEq, Repr

/-- A navigation request issued to the Next.js router, distinguishing
`router.replace` from `router.push`. -/
inductive NavAction where
  | replace (url : String)
  | push (url : String)
deriving DecidableEq, Repr

/-- The resolved target of a thread view. -/
inductive Resolution where
  | projectThread (pid : String)
  | standalone
deriving DecidableEq, Repr

/-- The resolution computed from fetched thread metadata: the source
tests `threadQuery.data?.project_id` for truthiness, so a missing or
empty `project_id` is the standalone case. -/
def resolveThread (d : ThreadData) : Resolution :=
  match d.project_id with
  | none => Resolution.standalone
  | some pid => if pid = "" then Resolution.standalone else Resolution.projectThread pid

/-- The redirect effect of the conversation page
(conversation/[threadId]/page.tsx lines 34-40): on fetched metadata with
a truthy `project_id`, `router.replace` to the project thread URL;
otherwise no navigation. It reads only the thread metadata — not the
message state — so the decision is independent of message-load timing. -/
def conversationRedirect (d : ThreadData) (threadId : String) : Option NavAction :=
  match d.project_id with
  | none => none
  | some pid =>
    if pid = "" then none
    else some (NavAction.replace ("/projects/" ++ pid ++ "/thread/" ++ threadId))

/-- The redirect effect of `RedirectPage`
(agents/[threadId]/redirect-page.tsx lines 16-26): metadata with a truthy
`project_id` replaces to the project thread URL, otherwise replaces to
the conversation URL. -/
def redirectPageNav (d : ThreadData) (threadId : String) : NavAction :=
  match d.project_id with
  | none => NavAction.replace ("/conversation/" ++ threadId)
  | some pid =>
    if pid = "" then NavAction.replace ("/conversation/" ++ threadId)
    else NavAction.replace ("/projects/" ++ pid ++ "/thread/" ++ threadId)

/-- A raw message record as returned by the fetch collaborator: every
field may be missing. A missing field is `none`; JS also treats the
empty string as falsy, which `jsOrS` accounts for. -/
structure RawMessage where
  message_id : Option String
  thread_id : Option String
  type : Option String
  is_llm_message : Option Bool
  content : Option String
  metadata : Option String
  created_at : Option String
  updated_at : Option String
deriving DecidableEq, Repr

/-- A normalized `UnifiedMessage` as built by the conversation page. -/
structure UnifiedMessage where
  message_id : Option String
  thread_id : String
  type : String
  is_llm_message : Bool
  content : String
  metadata : String
  created_at : String
  updated_at : String
deriving DecidableEq, Repr

/-- JS `x || d` on an optional string: `undefined`, `null` and `""` are
falsy and yield the default. -/
def jsOrS (v : Option String) (d : String) : String :=
  match v with
  | none => d
  | some s => if s = "" then d else s

/-- JS `msg.message_id || null`: a missing or empty id becomes `null`. -/
def jsIdOpt (v : Option String) : Option String :=
  match v with
  | none => none
  | some s => if s = "" then none else some s

/-- JS `Boolean(msg.is_llm_message)`: a missing field is `false`. -/
def jsBool (v : Option Bool) : Bool :=
  match v with
  | none => false
  | some b => b

/-- The per-record mapping of the messages normalization effect
(conversation/[threadId]/page.tsx lines 46-55): each missing field is
defaulted independently — id to null, thread id to the page's threadId,
type to "system", content to the empty string, metadata to the empty
JSON object, timestamps to the current time. -/
def normalizeMsg (threadId nowISO : String) (m : RawMessage) : UnifiedMessage :=
  { message_id := jsIdOpt m.message_id
    thread_id := jsOrS m.thread_id threadId
    type := jsOrS m.type "system"
    is_llm_message := jsBool m.is_llm_message
    content := jsOrS m.content ""
    metadata := jsOrS m.metadata "\x7b\x7d"
    created_at := jsOrS m.created_at nowISO
    updated_at := jsOrS m.updated_at nowISO }

/-- The messages normalization effect (conversation/[threadId]/page.tsx
lines 42-60): filter out records whose raw `type` is "status", then map
each survivor through the per-record defaulting. No sorting is applied:
the output order is the raw fetch order. -/
def normalizeMessages (threadId nowISO : String) (raws : List RawMessage) :
    List UnifiedMessage :=
  (raws.filter (fun m => m.type ≠ some "status")).map (normalizeMsg threadId nowISO)

/-- Re-reading a normalized message as a raw record (every field
present), for stating idempotence of normalization. -/
def embedUnified (u : UnifiedMessage) : RawMessage :=
  { message_id := u.message_id
    thread_id := some u.thread_id
    type := some u.type
    is_llm_message := some u.is_llm_message
    content := some u.content
    metadata := some u.metadata
    created_at := some u.created_at
    updated_at := some u.updated_at }

/-- Lexicographic order on character lists by code point. -/
def leChars : List Char → List Char → Bool
  | [], _ => true
  | _ :: _, [] => false
  | a :: as, b :: bs =>
    if a.toNat < b.toNat then true
    else if b.toNat < a.toNat then false
    else leChars as bs

/-- Lexicographic order on strings (how ISO timestamps compare). -/
def leString (a b : String) : Bool :=
  leChars a.data b.data

/-- Whether a list of strings is ascending under the string order. -/
def sortedStrings : List String → Bool
  | [] => true
  | [_] => true
  | a :: b :: rest => leString a b && sortedStrings (b :: rest)

/-- Whether a message list is in `created_at`-ascending order. -/
def sortedByCreatedAt (l : List UnifiedMessage) : Bool :=
  sortedStrings (l.map (fun u => u.created_at))

/-- Insert a message into a `created_at`-sorted list. -/
def insertByTime (u : UnifiedMessage) : List UnifiedMessage → List UnifiedMessage
  | [] => [u]
  | v :: rest =>
    if leString u.created_at v.created_at then u :: v :: rest
    else v :: insertByTime u rest

/-- Insertion sort of a message list by `created_at`. -/
def sortByTime : List UnifiedMessage → List UnifiedMessage
  | [] => []
  | u :: rest => insertByTime u (sortByTime rest)

/-- Modelled from the spec: the spec's §8 transformation for a
standalone thread — "the normalized, status-filtered, timestamp-ascending
transformation of the raw fetch result" — i.e. the source's
normalization followed by a sort on `created_at`. The source applies no
such sort; this definition exists to compare the two. -/
def specSortedNormalize (threadId nowISO : String) (raws : List RawMessage) :
    List UnifiedMessage :=
  sortByTime (normalizeMessages threadId nowISO raws)

/-- JS `String.prototype.trim`: strip whitespace from both ends,
expressed on the character list. -/
def trimChars (l : List Char) : List Char :=
  ((l.dropWhile (fun c => c.isWhitespace)).reverse.dropWhile
    (fun c => c.isWhitespace)).reverse

/-- JS `message.trim()` as used in the submit guard. -/
def jsTrim (s : String) : String :=
  String.mk (trimChars s.data)

/-- The conversation page state touched by `handleSubmitMessage`. -/
structure ConvState where
  messages : List UnifiedMessage
  newMessage : String
  isSending : Bool
deriving DecidableEq, Repr

/-- Outcome of the awaited `initiateAgent` dispatch. -/
inductive DispatchResult where
  | ok
  | err (msg : String)
deriving DecidableEq, Repr

/-- Everything observable about one `handleSubmitMessage` call: the
final React state, whether a dispatch was issued, the alert shown (if
any), and whether a post-send refetch was requested. -/
structure SubmitOutcome where
  state : ConvState
  dispatched : Bool
  alertShown : Option String
  refetchRequested : Bool
deriving DecidableEq, Repr

/-- `handleSubmitMessage` (conversation/[threadId]/page.tsx lines
75-102): return early when the trimmed message is empty or a send is in
flight; otherwise raise `isSending`, clear the composed input, dispatch,
and on success refetch while on failure show
`alert("Error: " + message)`; `finally` restores `isSending := false`.
The catch branch never touches `messages` or `newMessage`. -/
def handleSubmitMessage (st : ConvState) (message : String) (result : DispatchResult) :
    SubmitOutcome :=
  if jsTrim message = "" ∨ st.isSending then
    { state := st, dispatched := false, alertShown := none, refetchRequested := false }
  else
    match result with
    | DispatchResult.ok =>
      { state := { st with newMessage := "", isSending := false }
        dispatched := true
        alertShown := none
        refetchRequested := true }
    | DispatchResult.err e =>
      { state := { st with newMessage := "", isSending := false }
        dispatched := true
        alertShown := some ("Error: " ++ e)
        refetchRequested := false }

/-- Whether `needle` occurs at the start of `hay` (character lists). -/
def startsChars : List Char → List Char → Bool
  | [], _ => true
  | _ :: _, [] => false
  | a :: as, b :: bs => (a = b : Bool) && startsChars as bs

/-- Whether `needle` occurs anywhere inside `hay` (character lists);
used to state whether an alert surfaces the user's typed text. -/
def mentionsChars (needle : List Char) : List Char → Bool
  | [] => startsChars needle []
  | b :: bs => startsChars needle (b :: bs) || mentionsChars needle bs

/-- Whether an alert's text contains the given typed text. -/
def alertRevealsText (alert : Option String) (text : String) : Bool :=
  match alert with
  | none => false
  | some a => mentionsChars text.data a.data

/-- A concrete session used in counterexample traces. -/
def sessionAlice : SessionT :=
  { userId := "alice", expires_at := some 1700000240 }

/-- A concrete authenticated provider state (mounted: listener and
interval live). -/
def authedAlice : AuthState :=
  { session := some sessionAlice, user := some "alice", isLoading := false,
    timerActive := true, listenerActive := true }

/-- The interleaving in which a sign-out event is delivered while a
refresh call is still in flight, and the stale refresh then resolves
successfully with the pre-sign-out session. -/
def staleRefreshTrace : List AuthEvent :=
  [AuthEvent.authChange "SIGNED_OUT" none,
   AuthEvent.refreshComplete (RefreshResult.ok (some sessionAlice))]

/-- Raw record carrying only a "status" type (transport signal). -/
def rawStatusRec : RawMessage :=
  { message_id := none, thread_id := none, type := some "status",
    is_llm_message := none, content := none, metadata := none,
    created_at := none, updated_at := none }

/-- Raw user record "hi" at time `T1`, other fields missing. -/
def rawUserHi : RawMessage :=
  { message_id := none, thread_id := none, type := some "user",
    is_llm_message := none, content := some "hi", metadata := none,
    created_at := some "T1", updated_at := none }

/-- Raw assistant record "hello" at time `T2`, other fields missing. -/
def rawAsstHello : RawMessage :=
  { message_id := none, thread_id := none, type := some "assistant",
    is_llm_message := none, content := some "hello", metadata := none,
    created_at := some "T2", updated_at := none }

/-- The spec's §8 scenario input for normalization. -/
def exampleRaws : List RawMessage :=
  [rawStatusRec, rawUserHi, rawAsstHello]

/-- A raw fetch result that is NOT in ascending timestamp order: the
`T2` record precedes the `T1` record. -/
def outOfOrderRaws : List RawMessage :=
  [rawAsstHello, rawUserHi]

/-- A normalized message already present in the list before a send. -/
def msgPrior : UnifiedMessage :=
  { message_id := some "m1", thread_id := "t", type := "user",
    is_llm_message := false, content := "earlier", metadata := "\x7b\x7d",
    created_at := "T0", updated_at := "T0" }

/-- Conversation state with one prior message, the text "hello" typed,
and no send in flight. -/
def convStateBefore : ConvState :=
  { messages := [msgPrior], newMessage := "hello", isSending := false }

theorem jsOrS_absorb (v : Option String) (d : String) :
    jsOrS (some (jsOrS v d)) d = jsOrS v d := by
  cases v with
  | none => simp [jsOrS]
  | some s => by_cases h : s = "" <;> simp [jsOrS, h]

theorem jsOrS_absorb_of_ne (v : Option String) (d d2 : String) (h : d ≠ "") :
    jsOrS (some (jsOrS v d)) d2 = jsOrS v d := by
  cases v with
  | none => simp [jsOrS, h]
  | some s => by_cases hs : s = "" <;> simp [jsOrS, hs, h]

theorem jsIdOpt_idem (v : Option String) :
    jsIdOpt (jsIdOpt v) = jsIdOpt v := by
  cases v with
  | none => rfl
  | some s => by_cases h : s = "" <;> simp [jsIdOpt, h]

theorem jsBool_absorb (v : Option Bool) :
    jsBool (some (jsBool v)) = jsBool v := rfl

theorem jsOrS_ne (v : Option String) (d s : String) (hv : v ≠ some s) (hd : d ≠ s) :
    jsOrS v d ≠ s := by
  cases v with
  | none => simpa [jsOrS] using hd
  | some t =>
    by_cases ht : t = ""
    · simpa [jsOrS, ht] using hd
    · have hts : t ≠ s := fun he => hv (by rw [he])
      simpa [jsOrS, ht] using hts

theorem normalizeMsg_embed_eq (tid now now2 : String) (hnow : now ≠ "") (m : RawMessage) :
    normalizeMsg tid now2 (embedUnified (normalizeMsg tid now m)) = normalizeMsg tid now m := by
  simp [normalizeMsg, embedUnified, jsOrS_absorb, jsOrS_absorb_of_ne _ _ _ hnow,
    jsIdOpt_idem, jsBool_absorb]

theorem normalizeMessages_cons (tid now : String) (m : RawMessage) (rest : List RawMessage) :
    normalizeMessages tid now (m :: rest) =
      if m.type = some "status" then normalizeMessages tid now rest
      else normalizeMsg tid now m :: normalizeMessages tid now rest := by
  by_cases h : m.type = some "status" <;> simp [normalizeMessages, List.filter_cons, h]

/-- C1: evaluation of the auth provider on the failing interleaving — a
sign-out event sets the session to null, then a stale in-flight refresh
resolves successfully with the pre-sign-out session; the completion
handler applies the result unconditionally (no attempt tag or staleness
check), so the old session is resurrected, contrary to the claim that a
superseded refresh result must be discarded. -/
theorem c1_stale_refresh_resurrects_old_session :
    (runAuth authedAlice [AuthEvent.authChange "SIGNED_OUT" none]).session = none ∧
    (runAuth authedAlice staleRefreshTrace).session = some sessionAlice := by
  exact ⟨rfl, rfl⟩

/-- C2 counterexample: on a concrete authenticated state, `signOut`
returns with the session still present and the recurring interval still
active — it neither clears the state synchronously nor cancels the
timer, refuting the claim as stated. -/
theorem c2_signout_cancels_nothing :
    (signOut authedAlice).1.session = some sessionAlice ∧
    (signOut authedAlice).1.timerActive = true := by
  exact ⟨rfl, rfl⟩

/-- C2 amended: `signOut` only requests sign-out from the credential
store, returning the local state unchanged; session and user become null
when the asynchronous SIGNED_OUT auth-change event is delivered; the
interval is cancelled only by the unmount cleanup, and a tick running
after sign-out sees a null store session and issues no refresh. -/
theorem c2_amended_signout_behavior (st : AuthState) (nowMs : Int) :
    (signOut st).1 = st ∧
    (signOut st).2 = [StoreEffect.storeSignOutRequested] ∧
    (handleAuthChange st "SIGNED_OUT" none).session = none ∧
    (handleAuthChange st "SIGNED_OUT" none).user = none ∧
    tickIssuesRefresh none nowMs = false ∧
    (unmountCleanup st).timerActive = false := by
  refine ⟨rfl, rfl, ?_, ?_, rfl, rfl⟩ <;>
    by_cases h : st.isLoading <;>
      simp [handleAuthChange, applySessionUpdate, h]

/-- C3: evaluation of the periodic check at the failing input — with a
session expiring at 240 s and the store session unchanged because the
refresh issued by the first tick is still in flight, the ticks at 60 s
and 120 s each pass the expiry check and each call `refreshSession`: a
duplicate request is issued instead of being suppressed, since the tick
decision depends only on the store session and the clock. -/
theorem c3_overlapping_ticks_issue_duplicate_refresh :
    refreshRequestCount (some { userId := "alice", expires_at := some 240 })
      [60000, 120000] = 2 := by
  rfl

/-- C4: on a tick whose current session carries a truthy `expires_at`
(seconds), a refresh is issued iff the remaining margin
`expires_at · 1000 − now` (ms) is below five minutes. -/
theorem c4_tick_refresh_iff_margin_below_5min (u : String) (exp nowMs : Int) (h : exp ≠ 0) :
    tickIssuesRefresh (some { userId := u, expires_at := some exp }) nowMs = true ↔
      exp * 1000 - nowMs < 5 * 60 * 1000 := by
  simp [tickIssuesRefresh, h]
  omega

/-- C4 witness: a session expiring 4 minutes from now (expiry 240 s,
clock at 0 ms) triggers a refresh on the tick; one with 10 minutes
remaining (expiry 600 s) does not. -/
theorem c4_witness :
    ((240 : Int) ≠ 0 ∧
      tickIssuesRefresh (some { userId := "alice", expires_at := some 240 }) 0 = true) ∧
    ((600 : Int) ≠ 0 ∧
      tickIssuesRefresh (some { userId := "alice", expires_at := some 600 }) 0 = false) := by
  refine ⟨⟨by decide, ?_⟩, ⟨by decide, ?_⟩⟩
  · exact (c4_tick_refresh_iff_margin_below_5min "alice" 240 0 (by decide)).mpr (by decide)
  · cases hb : tickIssuesRefresh (some { userId := "alice", expires_at := some 600 }) 0 with
    | false => rfl
    | true =>
      exact absurd ((c4_tick_refresh_iff_margin_below_5min "alice" 600 0 (by decide)).mp hb)
        (by decide)

/-- C5: for fetched thread metadata carrying a (truthy) projectId, the
resolution is ProjectThread(projectId) and both consumers navigate with
`router.replace` (never push) to the project-scoped URL; each decision
is a pure function of the thread metadata alone, so it cannot depend on
message-load timing or ordering. -/
theorem c5_project_id_resolves_project_thread (pid tid : String) (h : pid ≠ "") :
    resolveThread { project_id := some pid } = Resolution.projectThread pid ∧
    conversationRedirect { project_id := some pid } tid =
      some (NavAction.replace ("/projects/" ++ pid ++ "/thread/" ++ tid)) ∧
    redirectPageNav { project_id := some pid } tid =
      NavAction.replace ("/projects/" ++ pid ++ "/thread/" ++ tid) := by
  refine ⟨?_, ?_, ?_⟩ <;> simp [resolveThread, conversationRedirect, redirectPageNav, h]

/-- C5 witness: metadata with projectId "p1" resolves to
ProjectThread "p1" and both consumers replace to the project URL. -/
theorem c5_witness :
    ("p1" : String) ≠ "" ∧
    (resolveThread { project_id := some "p1" } = Resolution.projectThread "p1" ∧
      conversationRedirect { project_id := some "p1" } "t1" =
        some (NavAction.replace ("/projects/" ++ "p1" ++ "/thread/" ++ "t1")) ∧
      redirectPageNav { project_id := some "p1" } "t1" =
        NavAction.replace ("/projects/" ++ "p1" ++ "/thread/" ++ "t1")) :=
  ⟨by decide, c5_project_id_resolves_project_thread "p1" "t1" (by decide)⟩

/-- C6 counterexample: a raw fetch whose records arrive at T2 then T1 is
shown in exactly that raw order — the visible list is not ascending and
differs from the sorted transformation the claim describes, because the
source applies no sort. -/
theorem c6_counterexample_no_sort :
    sortedByCreatedAt (normalizeMessages "t" "NOW" outOfOrderRaws) = false ∧
    normalizeMessages "t" "NOW" outOfOrderRaws ≠
      specSortedNormalize "t" "NOW" outOfOrderRaws := by
  refine ⟨by decide, by decide⟩

/-- C6 amended: the visible list equals the status-filtered, per-record
defaulted transformation of the raw fetch result in the raw order: its
timestamp sequence is exactly the (defaulted) timestamp sequence of the
filtered raw input, so it is ascending iff the filtered raw input
already is — no sort is applied. -/
theorem c6_amended_order_is_raw_order (tid now : String) (raws : List RawMessage) :
    (normalizeMessages tid now raws).map (fun u => u.created_at) =
      (raws.filter (fun m => m.type ≠ some "status")).map (fun m => jsOrS m.created_at now) ∧
    sortedByCreatedAt (normalizeMessages tid now raws) =
      sortedStrings ((raws.filter (fun m => m.type ≠ some "status")).map
        (fun m => jsOrS m.created_at now)) := by
  have h : (normalizeMessages tid now raws).map (fun u => u.created_at) =
      (raws.filter (fun m => m.type ≠ some "status")).map (fun m => jsOrS m.created_at now) := by
    simp [normalizeMessages, List.map_map, normalizeMsg]
  exact ⟨h, by rw [sortedByCreatedAt, h]⟩

/-- C7: normalization drops "status" records and handles each record
independently: the spec's scenario input yields exactly the user "hi"
then the assistant "hello" message, a lone "status" record yields the
empty list, and a record with every field missing is defaulted
field-by-field (id to null, type to "system", content to the empty
string, metadata to the empty JSON object, timestamps to the current
time) instead of failing the batch. -/
theorem c7_normalization_scenario (tid now : String) :
    normalizeMessages tid now exampleRaws =
      [{ message_id := none, thread_id := tid, type := "user", is_llm_message := false,
         content := "hi", metadata := "\x7b\x7d", created_at := "T1", updated_at := now },
       { message_id := none, thread_id := tid, type := "assistant", is_llm_message := false,
         content := "hello", metadata := "\x7b\x7d", created_at := "T2", updated_at := now }] ∧
    normalizeMessages tid now [rawStatusRec] = [] ∧
    normalizeMsg tid now
        { message_id := none, thread_id := none, type := none, is_llm_message := none,
          content := none, metadata := none, created_at := none, updated_at := none } =
      { message_id := none, thread_id := tid, type := "system", is_llm_message := false,
        content := "", metadata := "\x7b\x7d", created_at := now, updated_at := now } := by
  refine ⟨?_, ?_, ?_⟩ <;> rfl

/-- C8: normalization is idempotent — re-running the status filter and
field defaulting over an already-normalized list (same page threadId,
any later clock) returns the same list, provided the clock string used
for the first defaulting was nonempty. -/
theorem c8_normalize_idempotent (tid now now2 : String) (hnow : now ≠ "")
    (raws : List RawMessage) :
    normalizeMessages tid now2 ((normalizeMessages tid now raws).map embedUnified) =
      normalizeMessages tid now raws := by
  induction raws with
  | nil => rfl
  | cons m rest ih =>
    rw [normalizeMessages_cons]
    by_cases h : m.type = some "status"
    · simpa [h] using ih
    · have hts : jsOrS m.type "system" ≠ "status" :=
        jsOrS_ne m.type "system" "status" h (by decide)
      have hty : (embedUnified (normalizeMsg tid now m)).type ≠ some "status" := by
        simpa [embedUnified, normalizeMsg] using hts
      simp [h, List.map_cons, normalizeMessages_cons, hty,
        normalizeMsg_embed_eq tid now now2 hnow, ih]

/-- C8 witness: idempotence evaluated on the spec's scenario input with
threadId "t" and clock strings "N" then "M". -/
theorem c8_witness :
    ("N" : String) ≠ "" ∧
    normalizeMessages "t" "M" ((normalizeMessages "t" "N" exampleRaws).map embedUnified) =
      normalizeMessages "t" "N" exampleRaws :=
  ⟨by decide, c8_normalize_idempotent "t" "N" "M" (by decide) exampleRaws⟩

/-- C9 counterexample: with "hello" typed and the dispatch failing with
"network", the handler leaves the composed input cleared (empty, not the
typed text — it was cleared at dispatch time and is not restored) and
the alert shown is exactly "Error: network", which does not contain the
typed text: the typed content is neither kept for resubmission nor
surfaced via the error, refuting that part of the claim. -/
theorem c9_counterexample_typed_text_dropped :
    (handleSubmitMessage convStateBefore "hello"
        (DispatchResult.err "network")).state.newMessage = "" ∧
    (handleSubmitMessage convStateBefore "hello"
        (DispatchResult.err "network")).alertShown = some ("Error: " ++ "network") ∧
    alertRevealsText
        (handleSubmitMessage convStateBefore "hello"
          (DispatchResult.err "network")).alertShown "hello" = false := by
  refine ⟨by decide, by decide, by decide⟩

/-- C9 amended: a failed send restores isSending to false, surfaces an
explicit alert built from the dispatch error, requests no refetch, and
leaves the message list untouched; the composed input, cleared at
dispatch time, stays empty — the typed text itself is not preserved. -/
theorem c9_amended_failed_send (st : ConvState) (msg e : String)
    (h1 : jsTrim msg ≠ "") (h2 : st.isSending = false) :
    (handleSubmitMessage st msg (DispatchResult.err e)).state.isSending = false ∧
    (handleSubmitMessage st msg (DispatchResult.err e)).alertShown =
      some ("Error: " ++ e) ∧
    (handleSubmitMessage st msg (DispatchResult.err e)).state.messages = st.messages ∧
    (handleSubmitMessage st msg (DispatchResult.err e)).state.newMessage = "" ∧
    (handleSubmitMessage st msg (DispatchResult.err e)).refetchRequested = false := by
  simp [handleSubmitMessage, h1, h2]

/-- C9 amended witness: the failed-send guarantees evaluated at the
typed text "hello" and the dispatch error "network". -/
theorem c9_amended_witness :
    (jsTrim "hello" ≠ "" ∧ convStateBefore.isSending = false) ∧
    ((handleSubmitMessage convStateBefore "hello"
        (DispatchResult.err "network")).state.isSending = false ∧
      (handleSubmitMessage convStateBefore "hello"
        (DispatchResult.err "network")).alertShown = some ("Error: " ++ "network") ∧
      (handleSubmitMessage convStateBefore "hello"
        (DispatchResult.err "network")).state.messages = convStateBefore.messages ∧
      (handleSubmitMessage convStateBefore "hello"
        (DispatchResult.err "network")).state.newMessage = "" ∧
      (handleSubmitMessage convStateBefore "hello"
        (DispatchResult.err "network")).refetchRequested = false) :=
  ⟨⟨by decide, rfl⟩,
    c9_amended_failed_send convStateBefore "hello" "network" (by decide) rfl⟩

/-- C10: when the trimmed composed message is empty (empty or
whitespace-only input) or a send is already in flight, the submit
handler is a no-op: the state is returned unchanged (input not cleared,
sending flag not raised, message list untouched), nothing is dispatched,
no alert is shown and no refetch is requested. -/
theorem c10_submit_guard_noop (st : ConvState) (msg : String) (r : DispatchResult)
    (h : jsTrim msg = "" ∨ st.isSending = true) :
    handleSubmitMessage st msg r =
      { state := st, dispatched := false, alertShown := none,
        refetchRequested := false } := by
  rcases h with h | h <;> simp [handleSubmitMessage, h]

/-- C10 witness: a whitespace-only submission against a state with no
send in flight is a no-op. -/
theorem c10_witness :
    (jsTrim "  " = "" ∨ convStateBefore.isSending = true) ∧
    handleSubmitMessage convStateBefore "  " DispatchResult.ok =
      { state := convStateBefore, dispatched := false, alertShown := none,
        refetchRequested := false } :=
  ⟨Or.inl (by decide),
    c10_submit_guard_noop convStateBefore "  " DispatchResult.ok (Or.inl (by decide))⟩
